import Mathlib

/-!
# InjuryShield streaming decision core — verification development

Shallow embedding of the streaming decision-and-dispatch core of the
InjuryShield repository (`app/routes.py`, `app/alerts/alert_logic.py`,
`app/database/db_manager.py`, `app/config.py`), together with theorems
settling the specification claims about it.

The registered web blueprint is the one in `app/routes.py`
(`app/__init__.py` registers `app.routes.web_routes`), so `routes.py` is the
authoritative version of `analyze_frame_for_ppe_status` and
`generate_frames`; `app/detection/detector.py` contains an older copy that is
never registered.

Machine reals (Python floats used for wall-clock times and confidences) are
modelled as `Int` timestamps and `ℚ` confidences: the core only compares
times by subtraction against integer thresholds and copies confidences
verbatim, so no floating-point behaviour is load-bearing.
-/

namespace InjuryShield

/-- Embedding of Python `s.startswith(pat)`: prefix test on character lists. -/
def strStartsWith (s pat : String) : Bool :=
  pat.toList.isPrefixOf s.toList

/-- Infix (contiguous sublist) test on lists, used to embed Python's
substring operator `pat in s`. -/
def segOccurs [BEq α] (pat : List α) : List α → Bool
  | [] => pat.isEmpty
  | a :: rest => pat.isPrefixOf (a :: rest) || segOccurs pat rest

/-- Embedding of Python `pat in s` (substring containment). -/
def strContainsSub (s pat : String) : Bool :=
  segOccurs pat.toList s.toList

/-- Fuel-indexed worker for Python `str.replace`: replaces non-overlapping
occurrences of `pat` left to right.  The fuel is instantiated with the length
of the list, which is always sufficient since every step consumes at least
one character. -/
def replaceFuel (pat rep : List Char) : Nat → List Char → List Char
  | _, [] => []
  | 0, l => l
  | fuel + 1, c :: rest =>
    if pat ≠ [] ∧ pat.isPrefixOf (c :: rest) then
      rep ++ replaceFuel pat rep fuel (List.drop (pat.length - 1) rest)
    else
      c :: replaceFuel pat rep fuel rest

/-- Embedding of Python `s.replace(pat, rep)` for a nonempty pattern
(the core only ever replaces the nonempty pattern `"no-"`). -/
def pyReplace (s pat rep : String) : String :=
  String.mk (replaceFuel pat.toList rep.toList s.toList.length s.toList)

/-- One detection produced by the external detector (`PPEDetector.detect`):
bounding box, confidence and class name. -/
structure Detection where
  box : List Int
  confidence : ℚ
  class_name : String
  deriving Repr, DecidableEq

/-- One ViolationEvent record as built by `analyze_frame_for_ppe_status`
(the dict appended to `violation_details`). -/
structure ViolationDetail where
  violation_type : String
  location_box : List Int
  confidence : ℚ
  severity : Nat
  deriving Repr, DecidableEq

/-- The worn-PPE class list of `routes.analyze_frame_for_ppe_status`
(`['helmet', 'vest', 'gloves']`). -/
def wornPPEClasses : List String := ["helmet", "vest", "gloves"]

/-- Severity assignment of `routes.analyze_frame_for_ppe_status`, line 197:
`3 if 'helmet' in class_name else 2`. -/
def severityOf (class_name : String) : Nat :=
  if strContainsSub class_name "helmet" = true then 3 else 2

/-- The ViolationEvent built for a detection whose class starts with
`"no-"` (`routes.analyze_frame_for_ppe_status`, lines 193-198). -/
def violationDetailOf (det : Detection) : ViolationDetail :=
  { violation_type := det.class_name
    location_box := det.box
    confidence := det.confidence
    severity := severityOf det.class_name }

/-- Count of detections with class `'person'` (loop at lines 169-174,
`if class_name == 'person'` branch). -/
def person_count (detections : List Detection) : Nat :=
  (detections.filter fun det => det.class_name == "person").length

/-- Count of worn-PPE detections (the `elif class_name in
['helmet', 'vest', 'gloves']` branch of the same loop). -/
def ppe_worn_count (detections : List Detection) : Nat :=
  (detections.filter fun det =>
    det.class_name != "person" && wornPPEClasses.contains det.class_name).length

/-- The violation list built by the second loop (lines 189-198): one entry
per detection whose class name starts with `"no-"`, in detection order. -/
def violation_details (detections : List Detection) : List ViolationDetail :=
  (detections.filter fun det => strStartsWith det.class_name "no-").map violationDetailOf

/-- Embedding of `violations_count`, incremented once per `"no-"` detection. -/
def violations_count (detections : List Detection) : Nat :=
  (detections.filter fun det => strStartsWith det.class_name "no-").length

/-- The status string computed at lines 217-223 of `routes.py`:
`"Compliant"` initialised, then the `if` / `elif` chain. -/
def status_message (person_count violations_count : Nat) : String :=
  if 0 < violations_count then
    toString violations_count ++ " Violation(s) Detected"
  else if 0 < person_count ∧ violations_count = 0 then
    "Compliant (Persons detected, no violations)"
  else if person_count = 0 then
    "No persons detected"
  else
    "Compliant"

/-- The tuple returned by `routes.analyze_frame_for_ppe_status`. -/
structure AnalysisResult where
  person_count : Nat
  ppe_worn_count : Nat
  violations_count : Nat
  status_message : String
  violation_details : List ViolationDetail
  deriving Repr, DecidableEq

/-- Embedding of `routes.analyze_frame_for_ppe_status` (lines 152-226).
It is a total function: no exception can be raised. -/
def analyze_frame_for_ppe_status (detections : List Detection) : AnalysisResult :=
  { person_count := person_count detections
    ppe_worn_count := ppe_worn_count detections
    violations_count := violations_count detections
    status_message := status_message (person_count detections) (violations_count detections)
    violation_details := violation_details detections }

/-- The abstract status enumeration used by the specification. -/
inductive ComplianceStatus where
  | Compliant
  | ViolationsDetected
  | NoPersonsDetected
  deriving Repr, DecidableEq

/-- Status classification exactly as the specification words it
(claim-side definition, to be compared with the code's status string):
`ViolationsDetected` iff `violation_count > 0`, otherwise
`NoPersonsDetected` iff `person_count == 0`, otherwise `Compliant`. -/
def specStatus (person_count violation_count : Nat) : ComplianceStatus :=
  if 0 < violation_count then .ViolationsDetected
  else if person_count = 0 then .NoPersonsDetected
  else .Compliant

/-- The concrete status string the code prints for each abstract status. -/
def statusString : ComplianceStatus → Nat → String
  | .ViolationsDetected, v => toString v ++ " Violation(s) Detected"
  | .NoPersonsDetected, _ => "No persons detected"
  | .Compliant, _ => "Compliant (Persons detected, no violations)"

/-- The configuration constants of `app/config.py` that drive the core
(lines 71-79). -/
structure Config where
  SAVE_VIOLATION_SNAPSHOT : Bool
  SNAPSHOT_CONSECUTIVE_VIOLATIONS : Nat
  LOG_INTERVAL_SECONDS : Int
  ALERT_COOLDOWN_SECONDS : Int
  deriving Repr, DecidableEq

/-- The default configuration values of `app/config.py`:
`ALERT_COOLDOWN_SECONDS = 60`, `LOG_INTERVAL_SECONDS = 5`,
`SAVE_VIOLATION_SNAPSHOT = True`, `SNAPSHOT_CONSECUTIVE_VIOLATIONS = 5`. -/
def defaultConfig : Config :=
  { SAVE_VIOLATION_SNAPSHOT := true
    SNAPSHOT_CONSECUTIVE_VIOLATIONS := 5
    LOG_INTERVAL_SECONDS := 5
    ALERT_COOLDOWN_SECONDS := 60 }

/-- Embedding of `AlertManager` of `app/alerts/alert_logic.py`: the cooldown and the
`last_alert_time` defaultdict, modelled as a total function with default 0
(`defaultdict(float)`, epoch start). -/
structure AlertManager where
  alert_cooldown_seconds : Int
  last_alert_time : String → Int

/-- Embedding of `AlertManager.should_send_alert` (alert_logic 30-49): true iff
`now - last_alert_time[violation_type] >= alert_cooldown_seconds`. -/
def AlertManager.should_send_alert (m : AlertManager) (violation_type : String)
    (now : Int) : Bool :=
  decide (m.alert_cooldown_seconds ≤ now - m.last_alert_time violation_type)

/-- Embedding of `AlertManager.record_alert_sent` (alert_logic 51-60): sets
`last_alert_time[violation_type] = now`. -/
def AlertManager.record_alert_sent (m : AlertManager) (violation_type : String)
    (now : Int) : AlertManager :=
  { m with
    last_alert_time := fun t => if t = violation_type then now else m.last_alert_time t }

/-- Aggregation of violation details by type, in first-seen order: the
`defaultdict(int)` summary built by `format_alert_message`. -/
def bumpCount (l : List (String × Nat)) (k : String) : List (String × Nat) :=
  match l with
  | [] => [(k, 1)]
  | (k', n) :: rest => if k' = k then (k', n + 1) :: rest else (k', n) :: bumpCount rest k

/-- Embedding of `violation_summary` of `format_alert_message`: per-type counts over the
details list, keyed in first-seen order as a Python dict is. -/
def violationSummary (details : List ViolationDetail) : List (String × Nat) :=
  details.foldl (fun acc d => bumpCount acc d.violation_type) []

/-- Embedding of `AlertManager.format_alert_message` (alert_logic 62-90).  The
`frame_time` argument of the source is a datetime rendered through
`strftime`; the rendering itself is external library behaviour, so the
embedding takes the already-rendered timestamp string. -/
def format_alert_message (violation_details : List ViolationDetail)
    (frame_time_str : String) : String :=
  if violation_details.isEmpty = true then "No violations detected."
  else
    String.intercalate "\n"
      (("InjuryShield ALERT at " ++ frame_time_str ++ ":")
        :: (violationSummary violation_details).map
            (fun p => "- " ++ toString p.2 ++ "x " ++ pyReplace p.1 "no-" "missing ")
        ++ ["Immediate action required."])

/-- One alert-dispatch call as issued by the driver loop (routes 315-325):
a violation type, the wall-clock time of the call, and the result the
notification transport would return.  The source discards the return value
of `send_sms`, so `send_ok` is never consulted. -/
structure AlertCall where
  vtype : String
  now : Int
  send_ok : Bool

/-- Processing a sequence of dispatch calls against the alert manager:
`should_send_alert`, then `send_sms` (result discarded), then
`record_alert_sent`, exactly as `generate_frames` does per violation
detail.  Returns the final manager and the attempted sends `(type, time)`. -/
def alertRun (m : AlertManager) : List AlertCall → AlertManager × List (String × Int)
  | [] => (m, [])
  | c :: rest =>
    if m.should_send_alert c.vtype c.now = true then
      ((alertRun (m.record_alert_sent c.vtype c.now) rest).1,
        (c.vtype, c.now) :: (alertRun (m.record_alert_sent c.vtype c.now) rest).2)
    else
      alertRun m rest

/-- The times of the attempted sends for a fixed violation type. -/
def attemptTimesFor (T : String) (attempts : List (String × Int)) : List Int :=
  (attempts.filter fun p => p.1 == T).map fun p => p.2

/-- One frame of the snapshot logic of `generate_frames` (routes 276-285):
from the consecutive-violation counter and the frame's `violations_count`,
the new counter and whether a capture is attempted.  The counter is reset
after a capture attempt regardless of whether the capture I/O succeeds (the
reset at line 283 is unconditional), and reset whenever the frame has no
violations or snapshot saving is disabled. -/
def snapshotStep (save_enabled : Bool) (threshold count violations_count : Nat) :
    Nat × Bool :=
  if save_enabled = true ∧ 0 < violations_count then
    if threshold ≤ count + 1 then (0, true) else (count + 1, false)
  else (0, false)

/-- Iterating the snapshot logic over a sequence of per-frame violation
counts, collecting the capture decisions. -/
def snapshotRun (save_enabled : Bool) (threshold : Nat) (count : Nat) :
    List Nat → Nat × List Bool
  | [] => (count, [])
  | v :: vs =>
    ((snapshotRun save_enabled threshold (snapshotStep save_enabled threshold count v).1 vs).1,
      (snapshotStep save_enabled threshold count v).2 ::
        (snapshotRun save_enabled threshold (snapshotStep save_enabled threshold count v).1 vs).2)

/-- Outcome of the external detector on one frame: a detection list, or a
raised exception. -/
inductive DetectorOutcome where
  | ok (detections : List Detection)
  | exc
  deriving Repr, DecidableEq

/-- The per-frame inputs the loop body consumes from its collaborators:
the frame read (`none` models `read_frame()` returning `None`), the
wall-clock time of the iteration, the value `save_frame_snapshot` would
return if invoked, the id `save_compliance_log` would return if invoked
(`none` models a failed save), and the result `send_sms` would return. -/
structure FrameInput where
  read : Option DetectorOutcome
  time : Int
  capture_result : Option String
  save_log_result : Option Nat
  send_ok : Bool

/-- One row handed to `DBManager.save_compliance_log`. -/
structure ComplianceLogWrite where
  person_count : Nat
  ppe_worn_count : Nat
  violations_count : Nat
  status : String
  frame_snapshot_path : Option String
  deriving Repr, DecidableEq

/-- One row handed to `DBManager.save_violation_event`. -/
structure ViolationEventWrite where
  log_id : Nat
  violation_type : String
  location_box : List Int
  confidence : ℚ
  severity : Nat
  deriving Repr, DecidableEq

/-- The observable effects of one loop iteration: whether a snapshot
capture was attempted, the compliance-log write (if the interval elapsed),
the violation-event writes, the SMS messages sent, and the iteration's
`current_time` (recorded for stating timing properties). -/
structure FrameEffects where
  time : Int
  capture_attempted : Bool
  log_write : Option ComplianceLogWrite
  event_writes : List ViolationEventWrite
  alert_messages : List String
  deriving Repr, DecidableEq

/-- The mutable state `generate_frames` threads between iterations:
the consecutive-violation counter (a module global), `last_log_time`, the
alert manager's cooldown table, and the lingering `snapshot_path` local
(`none` models the name being unbound, `some r` the last capture attempt's
result). -/
structure DriverState where
  consecutive_violation_frames : Nat
  last_log_time : Int
  alerts : AlertManager
  snapshot_path_local : Option (Option String)

/-- The driver state at generator start (counter 0, `last_log_time`
initialised to the current time, cooldown table empty, `snapshot_path`
unbound). -/
def initialDriverState (cfg : Config) (t0 : Int) : DriverState :=
  { consecutive_violation_frames := 0
    last_log_time := t0
    alerts := { alert_cooldown_seconds := cfg.ALERT_COOLDOWN_SECONDS
                last_alert_time := fun _ => 0 }
    snapshot_path_local := none }

/-- The truthiness test Python applies to the lingering `snapshot_path`
local at line 299: the name must be bound and hold a non-empty string. -/
def truthySnapshotPath : Option (Option String) → Option String
  | some (some s) => if s = "" then none else some s
  | _ => none

/-- Models the `strftime`-rendered UTC timestamp passed to
`format_alert_message`; the rendering itself is external datetime-library
behaviour, abstracted as the decimal rendering of the frame time. -/
def utcTimestampStr (t : Int) : String := toString t

/-- The SMS-alerting section of the loop body (routes 315-325): for each
violation detail in order, if the cooldown allows it, format a message from
that single detail, send it, and record the attempt. -/
def dispatchFrame (m : AlertManager) (now : Int) :
    List ViolationDetail → AlertManager × List String
  | [] => (m, [])
  | d :: rest =>
    if m.should_send_alert d.violation_type now = true then
      ((dispatchFrame (m.record_alert_sent d.violation_type now) now rest).1,
        format_alert_message [d] (utcTimestampStr now)
          :: (dispatchFrame (m.record_alert_sent d.violation_type now) now rest).2)
    else
      dispatchFrame m now rest

/-- One iteration of the body of the `while True` loop of
`generate_frames` (routes 257-340) on a successfully read frame: analysis,
snapshot logic, interval logging, and SMS alerting. -/
def driverStep (cfg : Config) (st : DriverState) (dets : List Detection)
    (inp : FrameInput) : DriverState × FrameEffects :=
  let r := analyze_frame_for_ppe_status dets
  let snap := snapshotStep cfg.SAVE_VIOLATION_SNAPSHOT cfg.SNAPSHOT_CONSECUTIVE_VIOLATIONS
    st.consecutive_violation_frames r.violations_count
  let snapLocal := if snap.2 = true then some inp.capture_result else st.snapshot_path_local
  let doFlush := cfg.LOG_INTERVAL_SECONDS ≤ inp.time - st.last_log_time
  let logWrite : Option ComplianceLogWrite :=
    if doFlush then
      some { person_count := r.person_count
             ppe_worn_count := r.ppe_worn_count
             violations_count := r.violations_count
             status := r.status_message
             frame_snapshot_path := truthySnapshotPath snapLocal }
    else none
  let eventWrites : List ViolationEventWrite :=
    if doFlush then
      match inp.save_log_result with
      | some logId =>
        if 0 < r.violations_count then
          r.violation_details.map fun d =>
            { log_id := logId
              violation_type := d.violation_type
              location_box := d.location_box
              confidence := d.confidence
              severity := d.severity }
        else []
      | none => []
    else []
  let alertsOut := dispatchFrame st.alerts inp.time r.violation_details
  ({ consecutive_violation_frames := snap.1
     last_log_time := if doFlush then inp.time else st.last_log_time
     alerts := alertsOut.1
     snapshot_path_local := snapLocal },
   { time := inp.time
     capture_attempted := snap.2
     log_write := logWrite
     event_writes := eventWrites
     alert_messages := alertsOut.2 })

/-- Why the frame loop stopped: the source returned no frame (normal end),
the surrounding `except` clause caught an exception raised inside the loop
(logged, generator ends without re-raising), or the modelled input sequence
was exhausted with the stream still live. -/
inductive StopReason where
  | sourceExhausted
  | exceptionCaught
  | inputConsumed
  deriving Repr, DecidableEq

/-- The `while True` loop of `generate_frames` over a sequence of modelled
per-frame inputs.  A `none` read breaks out of the loop; a detector
exception propagates out of the loop body to the `except` handler at line
342, which logs it and ends the generator — the remaining inputs are never
read. -/
def runFrames (cfg : Config) (st : DriverState) :
    List FrameInput → DriverState × List FrameEffects × StopReason
  | [] => (st, [], StopReason.inputConsumed)
  | inp :: rest =>
    match inp.read with
    | none => (st, [], StopReason.sourceExhausted)
    | some DetectorOutcome.exc => (st, [], StopReason.exceptionCaught)
    | some (DetectorOutcome.ok dets) =>
      ((runFrames cfg (driverStep cfg st dets inp).1 rest).1,
        (driverStep cfg st dets inp).2 :: (runFrames cfg (driverStep cfg st dets inp).1 rest).2.1,
        (runFrames cfg (driverStep cfg st dets inp).1 rest).2.2)

/-- The times of the iterations at which the window was flushed (a
compliance-log write was attempted). -/
def flushTimes (effs : List FrameEffects) : List Int :=
  (effs.filter fun e => e.log_write.isSome).map fun e => e.time

/-- A concrete `"no-helmet"` detection used in witnesses and counterexamples. -/
def helmetDet : Detection :=
  { box := [10, 20, 110, 220], confidence := 1, class_name := "no-helmet" }

/-- A second concrete `"no-helmet"` detection (different box). -/
def helmetDet2 : Detection :=
  { box := [30, 40, 130, 240], confidence := 1, class_name := "no-helmet" }

theorem status_message_eq_statusString (p v : Nat) :
    status_message p v = statusString (specStatus p v) v := by
  unfold status_message specStatus
  by_cases hv : 0 < v
  · simp [hv, statusString]
  · have hv0 : v = 0 := by omega
    subst hv0
    by_cases hp : p = 0
    · simp [hp, statusString]
    · have hp' : 0 < p := Nat.pos_of_ne_zero hp
      simp [hp, hp', statusString]

/-- C8: for every detection list, the status returned by
`analyze_frame_for_ppe_status` is the `ViolationsDetected` status iff
`violations_count > 0`, otherwise the `NoPersonsDetected` status iff
`person_count == 0`, otherwise the `Compliant` status (the code's status
string is exactly the rendering of that classification); the function is
total (raises no exception), and on the empty detection list it returns
zero person, PPE-worn and violation counts, an empty violation list and the
no-persons status. -/
theorem C8_analyze_status (detections : List Detection) :
    (analyze_frame_for_ppe_status detections).status_message =
      statusString
        (specStatus (person_count detections) (violations_count detections))
        (violations_count detections)
    ∧ analyze_frame_for_ppe_status [] =
      { person_count := 0, ppe_worn_count := 0, violations_count := 0,
        status_message := "No persons detected", violation_details := [] } := by
  refine ⟨?_, rfl⟩
  exact status_message_eq_statusString _ _

/-- C2, counterexample: the violation type `"no-shoes"` belongs to no
severity category named anywhere in the code, yet its ViolationEvent gets
severity 2, not the claimed default severity 1. -/
theorem C2_counterexample :
    (analyze_frame_for_ppe_status
        [{ box := [0, 0, 10, 10], confidence := 1, class_name := "no-shoes" }]).violation_details
      = [{ violation_type := "no-shoes", location_box := [0, 0, 10, 10],
           confidence := 1, severity := 2 }]
    ∧ (2 : Nat) ≠ 1 := by
  exact ⟨rfl, by decide⟩

/-- C2, amended: every `"no-"`-prefixed detection yields exactly one
ViolationEvent; its severity is 3 when the violation type contains the
substring `"helmet"` and 2 otherwise (so helmet-category severities are
strictly higher: `"no-helmet"` gets 3, `"no-gloves"` gets 2, and 2 < 3);
the default for types outside the helmet category is 2, not 1. -/
theorem C2_amended_severity (detections : List Detection) :
    (analyze_frame_for_ppe_status detections).violation_details =
      (detections.filter fun det => strStartsWith det.class_name "no-").map violationDetailOf
    ∧ (∀ e ∈ (analyze_frame_for_ppe_status detections).violation_details,
        e.severity = if strContainsSub e.violation_type "helmet" = true then 3 else 2)
    ∧ severityOf "no-helmet" = 3 ∧ severityOf "no-gloves" = 2 ∧ 2 < 3 := by
  refine ⟨rfl, ?_, by decide, by decide, by decide⟩
  intro e he
  simp only [analyze_frame_for_ppe_status, violation_details, List.mem_map,
    List.mem_filter] at he
  obtain ⟨det, _, rfl⟩ := he
  rfl

theorem snapshotRun_below (threshold : Nat) :
    ∀ (vs : List Nat) (count : Nat), (∀ v ∈ vs, 0 < v) →
      count + vs.length < threshold →
        snapshotRun true threshold count vs
          = (count + vs.length, List.replicate vs.length false) := by
  intro vs
  induction vs with
  | nil => intro count _ h; simp [snapshotRun]
  | cons v rest ih =>
    intro count hpos h
    have hlen : (v :: rest).length = rest.length + 1 := rfl
    rw [hlen] at h
    have hv : 0 < v := hpos v (List.mem_cons_self _ _)
    have hstep : snapshotStep true threshold count v = (count + 1, false) := by
      have hlt : ¬ threshold ≤ count + 1 := by omega
      simp [snapshotStep, hv, hlt]
    have ihn := ih (count + 1) (fun x hx => hpos x (List.mem_cons_of_mem _ hx)) (by omega)
    rw [hlen, show count + (rest.length + 1) = count + 1 + rest.length by omega,
      List.replicate_succ]
    simp only [snapshotRun, hstep, ihn]

theorem snapshotRun_append (save : Bool) (threshold : Nat) (xs ys : List Nat) :
    ∀ count : Nat,
      snapshotRun save threshold count (xs ++ ys)
        = ((snapshotRun save threshold (snapshotRun save threshold count xs).1 ys).1,
            (snapshotRun save threshold count xs).2
              ++ (snapshotRun save threshold (snapshotRun save threshold count xs).1 ys).2) := by
  induction xs with
  | nil => intro count; simp [snapshotRun]
  | cons x xs ih => intro count; simp [snapshotRun, ih]

/-- C3: with snapshotting enabled and threshold `N ≥ 1`, feeding any `N`
consecutive frames each with a positive violation count from counter 0
yields the capture decision `false` on frames `1..N-1` and `true` on
exactly frame `N`, with the counter reset to 0 immediately after firing; a
frame with zero violations resets the counter and returns `false`;
whenever the decision fires the counter is 0 afterwards (so capture cannot
fire again before a fresh threshold crossing); and in the driver loop both
the updated counter and the capture decision are independent of the
capture I/O result. -/
theorem C3_snapshot_trigger (N : Nat) (hN : 1 ≤ N) :
    (∀ vs : List Nat, vs.length = N → (∀ v ∈ vs, 0 < v) →
        snapshotRun true N 0 vs = (0, List.replicate (N - 1) false ++ [true]))
    ∧ (∀ c, snapshotStep true N c 0 = (0, false))
    ∧ (∀ save c v, (snapshotStep save N c v).2 = true → (snapshotStep save N c v).1 = 0)
    ∧ (∀ cfg st dets inp r,
        (driverStep cfg st dets { inp with capture_result := r }).1.consecutive_violation_frames
          = (driverStep cfg st dets inp).1.consecutive_violation_frames
        ∧ (driverStep cfg st dets { inp with capture_result := r }).2.capture_attempted
          = (driverStep cfg st dets inp).2.capture_attempted) := by
  refine ⟨?_, ?_, ?_, ?_⟩
  · intro vs hlenN hpos
    rcases List.eq_nil_or_concat' vs with rfl | ⟨ys, v, rfl⟩
    · simp at hlenN
      omega
    · have hys : ys.length = N - 1 := by
        rw [List.length_append, List.length_singleton] at hlenN
        omega
      have hlt : 0 + ys.length < N := by omega
      have hbelow := snapshotRun_below N ys 0
        (fun x hx => hpos x (List.mem_append_left _ hx)) hlt
      rw [Nat.zero_add] at hbelow
      have hv : 0 < v := hpos v (List.mem_append_right _ (List.mem_singleton_self v))
      have hlast : snapshotStep true N ys.length v = (0, true) := by
        have hge : N ≤ ys.length + 1 := by omega
        simp [snapshotStep, hv, hge]
      rw [snapshotRun_append, hbelow]
      simp only [snapshotRun, hlast]
      rw [hys]
  · intro c
    simp [snapshotStep]
  · intro save c v h
    unfold snapshotStep at h ⊢
    by_cases hcond : save = true ∧ 0 < v
    · simp only [hcond, if_true] at h ⊢
      by_cases hthr : N ≤ c + 1
      · simp [hthr]
      · simp [hthr] at h
    · simp [hcond]
  · intro cfg st dets inp r
    exact ⟨rfl, rfl⟩

/-- Witness for C3 at the default threshold
`SNAPSHOT_CONSECUTIVE_VIOLATIONS = 5`, on a feed with varying positive
violation counts. -/
theorem C3_snapshot_trigger_witness :
    snapshotRun true 5 0 [3, 1, 2, 1, 4]
      = (0, List.replicate 4 false ++ [true]) :=
  (C3_snapshot_trigger 5 (by decide)).1 [3, 1, 2, 1, 4] (by decide) (by decide)

theorem alertRun_chain (co : Int) (T : String) (calls : List AlertCall) :
    ∀ m : AlertManager, m.alert_cooldown_seconds = co →
      List.Chain (fun a b => co ≤ b - a)
        (m.last_alert_time T) (attemptTimesFor T (alertRun m calls).2) := by
  induction calls with
  | nil => intro m _; simp [alertRun, attemptTimesFor]
  | cons c rest ih =>
    intro m hco
    by_cases h : m.should_send_alert c.vtype c.now = true
    · have hcool' : (m.record_alert_sent c.vtype c.now).alert_cooldown_seconds = co := hco
      by_cases hT : c.vtype = T
      · subst hT
        have hgap : co ≤ c.now - m.last_alert_time c.vtype := by
          have h' := of_decide_eq_true h
          rw [hco] at h'
          exact h'
        have hlast : (m.record_alert_sent c.vtype c.now).last_alert_time c.vtype = c.now := by
          simp [AlertManager.record_alert_sent]
        have ih' := ih (m.record_alert_sent c.vtype c.now) hcool'
        rw [hlast] at ih'
        simp only [alertRun, h, if_true, attemptTimesFor, List.filter_cons,
          beq_self_eq_true, List.map_cons]
        exact List.Chain.cons hgap ih'
      · have hlastT : (m.record_alert_sent c.vtype c.now).last_alert_time T
            = m.last_alert_time T := by
          have hne : T ≠ c.vtype := fun hEq => hT hEq.symm
          simp [AlertManager.record_alert_sent, hne]
        have ih' := ih (m.record_alert_sent c.vtype c.now) hcool'
        rw [hlastT] at ih'
        have hbeq : (c.vtype == T) = false := beq_eq_false_iff_ne.mpr hT
        simpa only [alertRun, h, if_true, attemptTimesFor, List.filter_cons, hbeq,
          if_false, Bool.false_eq_true] using ih'
    · simp only [alertRun, h, if_false, Bool.false_eq_true]
      exact ih m hco

/-- C4: for every sequence of alert-dispatch calls and every violation type
`T`, the attempted sends for `T` are separated by at least the cooldown
(chained from the table's previous entry), so at most one attempt occurs
per cooldown window; an eligible call (`now - last_sent >= cooldown`)
attempts exactly one send and sets `last_alert_time[T] = now`
unconditionally — the send result is universally quantified, so a failed
send behaves identically; a second call for the same type within the next
cooldown window dispatches nothing; and a call after the cooldown has
elapsed dispatches again. -/
theorem C4_alert_cooldown (m : AlertManager) (calls : List AlertCall) (T : String) :
    List.Chain (fun a b => m.alert_cooldown_seconds ≤ b - a)
      (m.last_alert_time T) (attemptTimesFor T (alertRun m calls).2)
    ∧ (∀ vt now ok rest,
        m.should_send_alert vt now = true →
          (alertRun m ({ vtype := vt, now := now, send_ok := ok } :: rest)).2
              = (vt, now) :: (alertRun (m.record_alert_sent vt now) rest).2
            ∧ (m.record_alert_sent vt now).last_alert_time vt = now)
    ∧ (∀ vt now now' ok ok',
        m.should_send_alert vt now = true →
        now' - now < m.alert_cooldown_seconds →
          (alertRun m [{ vtype := vt, now := now, send_ok := ok },
                       { vtype := vt, now := now', send_ok := ok' }]).2 = [(vt, now)])
    ∧ (∀ vt now now' ok ok',
        m.should_send_alert vt now = true →
        m.alert_cooldown_seconds ≤ now' - now →
          (alertRun m [{ vtype := vt, now := now, send_ok := ok },
                       { vtype := vt, now := now', send_ok := ok' }]).2
            = [(vt, now), (vt, now')]) := by
  refine ⟨alertRun_chain m.alert_cooldown_seconds T calls m rfl, ?_, ?_, ?_⟩
  · intro vt now ok rest h
    refine ⟨by simp [alertRun, h], ?_⟩
    simp [AlertManager.record_alert_sent]
  · intro vt now now' ok ok' h hlt
    have hlast : (m.record_alert_sent vt now).last_alert_time vt = now := by
      simp [AlertManager.record_alert_sent]
    have h2 : (m.record_alert_sent vt now).should_send_alert vt now' = false := by
      unfold AlertManager.should_send_alert
      rw [hlast, show (m.record_alert_sent vt now).alert_cooldown_seconds
        = m.alert_cooldown_seconds from rfl]
      simp only [decide_eq_false_iff_not]
      omega
    simp [alertRun, h, h2]
  · intro vt now now' ok ok' h hge
    have hlast : (m.record_alert_sent vt now).last_alert_time vt = now := by
      simp [AlertManager.record_alert_sent]
    have h2 : (m.record_alert_sent vt now).should_send_alert vt now' = true := by
      unfold AlertManager.should_send_alert
      rw [hlast, show (m.record_alert_sent vt now).alert_cooldown_seconds
        = m.alert_cooldown_seconds from rfl]
      simp only [decide_eq_true_eq]
      omega
    simp [alertRun, h, h2]

/-- Witness for C4 at concrete inputs: default 60-second cooldown, fresh
table; a call for `"no-helmet"` at time 100 attempts a send even though the
transport fails, and a second call at time 130 dispatches nothing. -/
theorem C4_alert_cooldown_witness :
    (alertRun { alert_cooldown_seconds := 60, last_alert_time := fun _ => 0 }
        [{ vtype := "no-helmet", now := 100, send_ok := false },
         { vtype := "no-helmet", now := 130, send_ok := true }]).2
      = [("no-helmet", 100)] :=
  (C4_alert_cooldown
      { alert_cooldown_seconds := 60, last_alert_time := fun _ => 0 } [] "no-helmet").2.2.1
    "no-helmet" 100 130 false true (by decide) (by decide)

/-- Witness for C2's amended theorem at a concrete input. -/
theorem C2_amended_severity_witness :
    (violationDetailOf { box := [0, 0, 1, 1], confidence := 1, class_name := "no-helmet" }).severity
      = if strContainsSub
            (violationDetailOf
              { box := [0, 0, 1, 1], confidence := 1, class_name := "no-helmet" }).violation_type
            "helmet" = true
        then 3 else 2 :=
  (C2_amended_severity
      [{ box := [0, 0, 1, 1], confidence := 1, class_name := "no-helmet" }]).2.1
    _ (by decide)

/-- C6: whenever the log interval has elapsed at a frame, the flushed
compliance-log row's person count, PPE-worn count, violation count and
status are exactly those of the frame observed at the flush — the last
frame observed before the flush (the arbitrary state `st` stands for any
history of earlier frames in the interval, whose metrics leave no trace in
the write): last-write-wins, not a sum or average. -/
theorem C6_last_write_wins (cfg : Config) (st : DriverState) (dets : List Detection)
    (inp : FrameInput)
    (hflush : cfg.LOG_INTERVAL_SECONDS ≤ inp.time - st.last_log_time) :
    (driverStep cfg st dets inp).2.log_write.map
        (fun w => (w.person_count, w.ppe_worn_count, w.violations_count, w.status))
      = some ((analyze_frame_for_ppe_status dets).person_count,
              (analyze_frame_for_ppe_status dets).ppe_worn_count,
              (analyze_frame_for_ppe_status dets).violations_count,
              (analyze_frame_for_ppe_status dets).status_message) := by
  simp [driverStep, hflush]

/-- Witness for C6 at a concrete input. -/
theorem C6_last_write_wins_witness :
    (driverStep defaultConfig (initialDriverState defaultConfig 0) []
        { read := some (DetectorOutcome.ok []), time := 5, capture_result := none,
          save_log_result := some 1, send_ok := true }).2.log_write.map
        (fun w => (w.person_count, w.ppe_worn_count, w.violations_count, w.status))
      = some (0, 0, 0, "No persons detected") := by
  have h := C6_last_write_wins defaultConfig (initialDriverState defaultConfig 0) []
    { read := some (DetectorOutcome.ok []), time := 5, capture_result := none,
      save_log_result := some 1, send_ok := true } (by decide)
  rw [h]
  rfl

/-- C5, counterexample: a `"no-helmet"` ViolationEvent is produced at frame
1 (time 1), the window is flushed at frame 2 (time 6, interval 5 elapsed,
compliance save succeeds), yet the flush writes zero violation events —
not the one event accumulated during the elapsed interval, because the
loop only ever persists the current frame's `violation_details`. -/
theorem C5_counterexample :
    ((runFrames defaultConfig (initialDriverState defaultConfig 0)
        [{ read := some (DetectorOutcome.ok [helmetDet]), time := 1, capture_result := none,
           save_log_result := none, send_ok := true },
         { read := some (DetectorOutcome.ok []), time := 6, capture_result := none,
           save_log_result := some 7, send_ok := true }]).2.1.map
        (fun e => (e.log_write.isSome, e.event_writes.length)))
      = [(false, 0), (true, 0)]
    ∧ (analyze_frame_for_ppe_status [helmetDet]).violation_details.length
        + (analyze_frame_for_ppe_status ([] : List Detection)).violation_details.length = 1
    ∧ (0 : Nat) ≠ 1 := by
  exact ⟨rfl, rfl, by decide⟩

/-- C5, amended: when the interval elapses and the compliance-log save
returns an id, exactly one compliance-log write occurs, followed by one
violation-event write per ViolationEvent **of the frame at which the flush
happens** (the current frame only — events of earlier frames in the
interval are never written), each write carrying that event's
violation type, box, confidence and severity, keyed by the returned id. -/
theorem C5_amended_flush_writes (cfg : Config) (st : DriverState) (dets : List Detection)
    (inp : FrameInput) (logId : Nat)
    (hflush : cfg.LOG_INTERVAL_SECONDS ≤ inp.time - st.last_log_time)
    (hsave : inp.save_log_result = some logId) :
    (driverStep cfg st dets inp).2.log_write.isSome = true
    ∧ (driverStep cfg st dets inp).2.event_writes
      = (analyze_frame_for_ppe_status dets).violation_details.map fun d =>
          { log_id := logId
            violation_type := d.violation_type
            location_box := d.location_box
            confidence := d.confidence
            severity := d.severity } := by
  constructor
  · simp [driverStep, hflush]
  · by_cases hv : 0 < (analyze_frame_for_ppe_status dets).violations_count
    · simp [driverStep, hflush, hsave, hv]
    · have hnil : (analyze_frame_for_ppe_status dets).violation_details = [] := by
        have hlen : (dets.filter fun det => strStartsWith det.class_name "no-").length = 0 := by
          simpa [analyze_frame_for_ppe_status, violations_count] using hv
        show violation_details dets = []
        unfold violation_details
        rw [List.length_eq_zero.mp hlen]
        rfl
      simp [driverStep, hflush, hsave, hv, hnil]

/-- Witness for C5's amended theorem at a concrete input. -/
theorem C5_amended_flush_writes_witness :
    (driverStep defaultConfig (initialDriverState defaultConfig 0) [helmetDet]
        { read := some (DetectorOutcome.ok [helmetDet]), time := 5, capture_result := none,
          save_log_result := some 7, send_ok := true }).2.event_writes
      = [{ log_id := 7, violation_type := "no-helmet", location_box := [10, 20, 110, 220],
           confidence := 1, severity := 3 }] := by
  have h := (C5_amended_flush_writes defaultConfig (initialDriverState defaultConfig 0)
    [helmetDet]
    { read := some (DetectorOutcome.ok [helmetDet]), time := 5, capture_result := none,
      save_log_result := some 7, send_ok := true } 7 (by decide) rfl).2
  rw [h]
  rfl

theorem runFrames_flush_chain (cfg : Config) :
    ∀ (frames : List FrameInput) (st : DriverState),
      List.Chain (fun a b => cfg.LOG_INTERVAL_SECONDS ≤ b - a)
        st.last_log_time (flushTimes (runFrames cfg st frames).2.1) := by
  intro frames
  induction frames with
  | nil => intro st; simp [runFrames, flushTimes]
  | cons inp rest ih =>
    intro st
    cases hread : inp.read with
    | none => simp [runFrames, hread, flushTimes]
    | some o =>
      cases o with
      | exc => simp [runFrames, hread, flushTimes]
      | ok dets =>
        simp only [runFrames, hread]
        by_cases hflush : cfg.LOG_INTERVAL_SECONDS ≤ inp.time - st.last_log_time
        · have hstate : (driverStep cfg st dets inp).1.last_log_time = inp.time := by
            simp [driverStep, hflush]
          have heff : ((driverStep cfg st dets inp).2.log_write).isSome = true := by
            simp [driverStep, hflush]
          have ih' := ih (driverStep cfg st dets inp).1
          rw [hstate] at ih'
          simp only [flushTimes, List.filter_cons, heff, if_true, List.map_cons]
          exact List.Chain.cons (by exact hflush) ih'
        · have hstate : (driverStep cfg st dets inp).1.last_log_time = st.last_log_time := by
            simp [driverStep, hflush]
          have heff : ((driverStep cfg st dets inp).2.log_write).isSome = false := by
            simp [driverStep, hflush]
          have ih' := ih (driverStep cfg st dets inp).1
          rw [hstate] at ih'
          simpa only [flushTimes, List.filter_cons, heff, if_false,
            Bool.false_eq_true] using ih'

/-- C7: the flush times of any run are chained at gaps of at least the log
interval (starting from the window's initial start time), so at most one
flush occurs per elapsed interval; and whenever the interval has elapsed
the flush resets the window start (`last_log_time`) to the current time —
also when the persistence write fails (`save_log_result = none`), so the
next interval starts fresh and the data lost to a failed flush is bounded
to that one interval. -/
theorem C7_flush_once_and_reset (cfg : Config) (st : DriverState)
    (frames : List FrameInput) :
    List.Chain (fun a b => cfg.LOG_INTERVAL_SECONDS ≤ b - a)
      st.last_log_time (flushTimes (runFrames cfg st frames).2.1)
    ∧ (∀ (st' : DriverState) (dets : List Detection) (inp : FrameInput),
        cfg.LOG_INTERVAL_SECONDS ≤ inp.time - st'.last_log_time →
          (driverStep cfg st' dets
              { inp with save_log_result := none }).1.last_log_time = inp.time
          ∧ (driverStep cfg st' dets inp).1.last_log_time = inp.time) := by
  refine ⟨runFrames_flush_chain cfg frames st, ?_⟩
  intro st' dets inp hflush
  constructor
  · simp [driverStep, hflush]
  · simp [driverStep, hflush]

/-- Witness for C7 at a concrete input with a failing persistence write. -/
theorem C7_flush_once_and_reset_witness :
    (driverStep defaultConfig (initialDriverState defaultConfig 0) []
        { read := some (DetectorOutcome.ok []), time := 5, capture_result := none,
          save_log_result := none, send_ok := true }).1.last_log_time = 5 := by
  have h := (C7_flush_once_and_reset defaultConfig (initialDriverState defaultConfig 0) []).2
    (initialDriverState defaultConfig 0) []
    { read := some (DetectorOutcome.ok []), time := 5, capture_result := none,
      save_log_result := none, send_ok := true } (by decide)
  exact h.2

/-- C10: if the compliance-log save fails (returns no id) at a flush point,
no violation-event write occurs for that interval; and every
violation-event write carries the id returned by the same interval's
successful compliance-log save, so every persisted ViolationEvent
references a successfully persisted ComplianceLog. -/
theorem C10_events_require_log (cfg : Config) (st : DriverState) (dets : List Detection)
    (inp : FrameInput) :
    (inp.save_log_result = none → (driverStep cfg st dets inp).2.event_writes = [])
    ∧ (∀ w ∈ (driverStep cfg st dets inp).2.event_writes,
        ∃ logId, inp.save_log_result = some logId ∧ w.log_id = logId) := by
  constructor
  · intro hnone
    by_cases hflush : cfg.LOG_INTERVAL_SECONDS ≤ inp.time - st.last_log_time
    · simp [driverStep, hflush, hnone]
    · simp [driverStep, hflush]
  · intro w hw
    by_cases hflush : cfg.LOG_INTERVAL_SECONDS ≤ inp.time - st.last_log_time
    · cases hsave : inp.save_log_result with
      | none => simp [driverStep, hflush, hsave] at hw
      | some logId =>
        refine ⟨logId, rfl, ?_⟩
        by_cases hv : 0 < (analyze_frame_for_ppe_status dets).violations_count
        · simp only [driverStep, hflush, hsave, hv, if_true, if_pos hflush] at hw
          simp only [List.mem_map] at hw
          obtain ⟨d, _, rfl⟩ := hw
          rfl
        · simp [driverStep, hflush, hsave, hv] at hw
    · simp [driverStep, hflush] at hw

/-- Witness for C10 at a concrete input: flush fires, the compliance-log
save fails, and no violation-event write occurs. -/
theorem C10_events_require_log_witness :
    (driverStep defaultConfig (initialDriverState defaultConfig 0) [helmetDet]
        { read := some (DetectorOutcome.ok [helmetDet]), time := 5, capture_result := none,
          save_log_result := none, send_ok := true }).2.event_writes = [] :=
  (C10_events_require_log defaultConfig (initialDriverState defaultConfig 0) [helmetDet]
      { read := some (DetectorOutcome.ok [helmetDet]), time := 5, capture_result := none,
        save_log_result := none, send_ok := true }).1 rfl

/-- C1, counterexample: a detector exception on the first frame is caught
(the run ends with the logged `exceptionCaught` outcome, nothing
propagates), but the loop does **not** continue: the exception frame is
not treated as a zero-detection frame and the perfectly good second frame
is never processed — the run yields no frame effects at all, not the two
the claim would require. -/
theorem C1_counterexample :
    (runFrames defaultConfig (initialDriverState defaultConfig 0)
        [{ read := some DetectorOutcome.exc, time := 1, capture_result := none,
           save_log_result := some 1, send_ok := true },
         { read := some (DetectorOutcome.ok [helmetDet]), time := 2, capture_result := none,
           save_log_result := some 2, send_ok := true }]).2
      = ([], StopReason.exceptionCaught)
    ∧ ([] : List FrameEffects).length ≠ 2 := by
  exact ⟨rfl, by decide⟩

/-- C1, amended: the `except` handler wraps the whole `while` loop, so a
detector exception is caught and logged and the generator ends cleanly
(`exceptionCaught`, never a propagated error), but it terminates the
stream: the exception frame produces no effects and none of the inputs
after it are ever consumed (the run's result is independent of them) — a
single-frame detector exception ends the feed instead of being treated as
"no detections". -/
theorem C1_amended_exception_terminates (cfg : Config) (st : DriverState)
    (inp : FrameInput) (hexc : inp.read = some DetectorOutcome.exc) :
    (∀ post, runFrames cfg st (inp :: post) = (st, [], StopReason.exceptionCaught))
    ∧ (∀ pre post post',
        runFrames cfg st (pre ++ inp :: post) = runFrames cfg st (pre ++ inp :: post')) := by
  constructor
  · intro post
    simp [runFrames, hexc]
  · intro pre post post'
    induction pre generalizing st with
    | nil => simp [runFrames, hexc]
    | cons p ps ih =>
      cases hread : p.read with
      | none => simp [runFrames, hread]
      | some o =>
        cases o with
        | exc => simp [runFrames, hread]
        | ok dets =>
          simp only [List.cons_append, runFrames, hread, List.append_eq]
          rw [ih]

/-- Witness for C1's amended theorem at a concrete input. -/
theorem C1_amended_exception_terminates_witness :
    runFrames defaultConfig (initialDriverState defaultConfig 0)
        [{ read := some DetectorOutcome.exc, time := 3, capture_result := none,
           save_log_result := none, send_ok := false }]
      = (initialDriverState defaultConfig 0, [], StopReason.exceptionCaught) :=
  (C1_amended_exception_terminates defaultConfig (initialDriverState defaultConfig 0)
      { read := some DetectorOutcome.exc, time := 3, capture_result := none,
        save_log_result := none, send_ok := false } rfl).1 []

/-- C9, counterexample: a frame whose batch holds **two** `"no-helmet"`
events (cooldown satisfied, time 100) dispatches a single message built
from one event only: its bullet reads `"1x missing helmet"`, not the
batch-aggregated `"2x missing helmet"` the claim requires. -/
theorem C9_counterexample :
    (driverStep defaultConfig (initialDriverState defaultConfig 100)
        [helmetDet, helmetDet2]
        { read := some (DetectorOutcome.ok [helmetDet, helmetDet2]), time := 100,
          capture_result := none, save_log_result := none, send_ok := true }).2.alert_messages
      = ["InjuryShield ALERT at 100:\n- 1x missing helmet\nImmediate action required."]
    ∧ strContainsSub
        "InjuryShield ALERT at 100:\n- 1x missing helmet\nImmediate action required."
        "1x missing helmet" = true
    ∧ strContainsSub
        "InjuryShield ALERT at 100:\n- 1x missing helmet\nImmediate action required."
        "2x missing helmet" = false := by
  refine ⟨?_, by decide, by decide⟩
  rfl

theorem dispatchFrame_messages (now : Int) :
    ∀ (details : List ViolationDetail) (m : AlertManager),
      ∀ msg ∈ (dispatchFrame m now details).2,
        ∃ d ∈ details, msg = format_alert_message [d] (utcTimestampStr now) := by
  intro details
  induction details with
  | nil => intro m msg h; simp [dispatchFrame] at h
  | cons d rest ih =>
    intro m msg h
    by_cases hs : m.should_send_alert d.violation_type now = true
    · simp only [dispatchFrame, hs, if_true, List.mem_cons] at h
      rcases h with h | h
      · exact ⟨d, List.mem_cons_self _ _, h⟩
      · obtain ⟨d', hd', hmsg⟩ := ih (m.record_alert_sent d.violation_type now) msg h
        exact ⟨d', List.mem_cons_of_mem _ hd', hmsg⟩
    · simp only [dispatchFrame, hs, if_false, Bool.false_eq_true] at h
      obtain ⟨d', hd', hmsg⟩ := ih m msg h
      exact ⟨d', List.mem_cons_of_mem _ hd', hmsg⟩

/-- C9, amended: every dispatched alert message is formatted from the
single ViolationEvent that triggered it, not from the whole batch: each
message of the alerting section equals `format_alert_message` on a
one-event list for some detail of the frame, and such a message is exactly
a header line carrying the timestamp, one bullet line with count 1 and the
human label (`"no-"` replaced by `"missing "`), and the closing
call-to-action line; in particular a frame with exactly one `"no-helmet"`
event yields a message containing `"1x missing helmet"`. -/
theorem C9_amended_message_format :
    (∀ (now : Int) (details : List ViolationDetail) (m : AlertManager),
        ∀ msg ∈ (dispatchFrame m now details).2,
          ∃ d ∈ details, msg = format_alert_message [d] (utcTimestampStr now))
    ∧ (∀ (d : ViolationDetail) (ts : String),
        format_alert_message [d] ts
          = String.intercalate "\n"
              (("InjuryShield ALERT at " ++ ts ++ ":")
                :: ["- " ++ toString 1 ++ "x " ++ pyReplace d.violation_type "no-" "missing "]
                ++ ["Immediate action required."]))
    ∧ strContainsSub
        (format_alert_message [violationDetailOf helmetDet] "2026-10-12 00:00:00 UTC")
        "1x missing helmet" = true := by
  refine ⟨fun now => dispatchFrame_messages now, ?_, by decide⟩
  intro d ts
  rfl

/-- Witness for C9's amended theorem at a concrete input. -/
theorem C9_amended_message_format_witness :
    format_alert_message [violationDetailOf helmetDet] "T"
      = String.intercalate "\n"
          (("InjuryShield ALERT at " ++ "T" ++ ":")
            :: ["- " ++ toString 1 ++ "x "
                  ++ pyReplace (violationDetailOf helmetDet).violation_type "no-" "missing "]
            ++ ["Immediate action required."]) :=
  C9_amended_message_format.2.1 (violationDetailOf helmetDet) "T"

end InjuryShield
